import Mathlib

/-!
Shallow embedding of the event-registration core of the
InterviewDjangoEventManager repository (src/events/models.py,
src/events/views.py, src/events/serializers.py, src/events/emails.py).

Users and events are identified by natural numbers.  The only mutable
store the registration operations touch is the `EventRegistration`
table, modelled as a list of `Registration` records.  The `Event` table
is read-only during registration, modelled as a function from event ids
to `Event` records.  Timestamps are integers.
-/

namespace EventManager

/-- The `status` values of `EventRegistration.STATUS_CHOICES`
(models.py): `confirmed`, `cancelled`, `waitlist`. -/
inductive RegStatus where
  | confirmed
  | cancelled
  | waitlist
deriving DecidableEq, Repr

/-- One row of the `EventRegistration` table (models.py): the
registering user, the event registered for, and the status. -/
structure Registration where
  user : Nat
  event : Nat
  status : RegStatus
deriving DecidableEq, Repr

/-- One row of the `Event` table (models.py): the organizer, the event
date (an integer timestamp) and the optional `max_attendees` bound. -/
structure Event where
  organizer : Nat
  date : Int
  maxAttendees : Option Nat
deriving DecidableEq, Repr

/-- The mutable store: the rows of the `EventRegistration` table. -/
structure State where
  regs : List Registration
deriving DecidableEq, Repr

/-- `event.registrations.filter(status='confirmed')` (models.py): the
registrations of event `eid` whose status is `confirmed`. -/
def confirmedRegs (s : State) (eid : Nat) : List Registration :=
  s.regs.filter (fun r => r.event == eid && r.status == RegStatus.confirmed)

/-- `Event.attendees_count` (models.py):
`self.registrations.filter(status='confirmed').count()`. -/
def attendees_count (s : State) (eid : Nat) : Nat :=
  (confirmedRegs s eid).length

/-- `Event.is_full` (models.py): `False` when `max_attendees is None`,
otherwise whether the confirmed-registration count is `>= max_attendees`. -/
def is_full (events : Nat → Event) (s : State) (eid : Nat) : Bool :=
  match (events eid).maxAttendees with
  | none => false
  | some n => attendees_count s eid ≥ n

/-- `EventRegistration.objects.filter(user=user, event=event).exists()`
(views.py, the duplicate check in `register`): note it does NOT filter
on status. -/
def hasRegistration (s : State) (user eid : Nat) : Bool :=
  s.regs.any (fun r => r.user == user && r.event == eid)

/-- `EventDetailSerializer.get_is_registered` (serializers.py):
`obj.registrations.filter(user=request.user, status='confirmed').exists()`
for an authenticated user. -/
def is_registered (s : State) (user eid : Nat) : Bool :=
  s.regs.any (fun r => r.event == eid && r.user == user &&
    r.status == RegStatus.confirmed)

/-- The error responses of `EventViewSet.register` (views.py), in the
order the view checks them. -/
inductive RegisterError where
  | OwnerSelfRegistration
  | DuplicateRegistration
  | CapacityExceeded
deriving DecidableEq, Repr

/-- Everything a `register` call produces: the HTTP-level result (the
created registration, or the error of the 400 response), the state of
the registration table afterwards, and the confirmation notifications
dispatched during the call.  `views.py`'s `register` contains no call to
`emails.send_registration_confirmation_email` (that helper has no call
site in the repository), so every branch below leaves
`sentConfirmationEmails` empty. -/
structure RegisterOutcome where
  result : Except RegisterError Registration
  state : State
  sentConfirmationEmails : List (Nat × Nat)
deriving Repr

/-- `EventViewSet.register` (views.py).  Checks, in order:
organizer self-registration, existing registration for the
(user, event) pair (any status), capacity; on success creates a
registration with `status='confirmed'`.  The view performs no check of
`event.date` and `objects.create` does not run `EventRegistration.clean`,
so the date plays no role here. -/
def register (events : Nat → Event) (user eid : Nat) (s : State) :
    RegisterOutcome :=
  if (events eid).organizer == user then
    ⟨Except.error RegisterError.OwnerSelfRegistration, s, []⟩
  else if hasRegistration s user eid then
    ⟨Except.error RegisterError.DuplicateRegistration, s, []⟩
  else if is_full events s eid then
    ⟨Except.error RegisterError.CapacityExceeded, s, []⟩
  else
    ⟨Except.ok ⟨user, eid, RegStatus.confirmed⟩,
     ⟨s.regs ++ [⟨user, eid, RegStatus.confirmed⟩]⟩, []⟩

/-- The error response of `EventViewSet.unregister` (views.py). -/
inductive UnregisterError where
  | NotRegistered
deriving DecidableEq, Repr

/-- `EventViewSet.unregister` (views.py): fetch the registration for
(user, event) and delete the record; when none exists
(`EventRegistration.DoesNotExist`) respond with the not-registered
error and leave the table untouched. -/
def unregister (user eid : Nat) (s : State) :
    Except UnregisterError Unit × State :=
  if hasRegistration s user eid then
    (Except.ok (), ⟨s.regs.eraseP (fun r => r.user == user && r.event == eid)⟩)
  else
    (Except.error UnregisterError.NotRegistered, s)

/-- The `ValidationError`s of `EventRegistration.clean` (models.py), in
the order the method raises them. -/
inductive CleanError where
  | OrganizerSelfRegistration
  | PastEventRegistration
deriving DecidableEq, Repr

/-- `EventRegistration.clean` (models.py): rejects a registration whose
user is the event's organizer, then one whose event date is before
`now`.  Django's `objects.create` (used by the `register` view) does
not invoke this method. -/
def registration_clean (events : Nat → Event) (now : Int)
    (reg : Registration) : Except CleanError Unit :=
  if (events reg.event).organizer == reg.user then
    Except.error CleanError.OrganizerSelfRegistration
  else if (events reg.event).date < now then
    Except.error CleanError.PastEventRegistration
  else
    Except.ok ()

/-- `emails.send_registration_confirmation_email` (emails.py): attempts
the mail send and returns `true` on success; any exception from the
transport is caught and turned into `false`, never propagated.  The
transport outcome is passed in as `mailSent`. -/
def send_registration_confirmation_email (mailSent : Except Unit Unit) :
    Bool :=
  match mailSent with
  | Except.ok _ => true
  | Except.error _ => false

/-- The field-validation errors of `EventCreateUpdateSerializer`
(serializers.py) surfaced by `EventViewSet.create`. -/
inductive CreateError where
  | PastDateError
  | InvalidCapacityError
deriving DecidableEq, Repr

/-- The client-supplied fields of an event-creation request that the
serializer validates (`date` and `max_attendees`; the capacity arrives
as an arbitrary integer before validation). -/
structure EventDraft where
  date : Int
  maxAttendees : Option Int
deriving DecidableEq, Repr

/-- `EventCreateUpdateSerializer.validate_date` (serializers.py):
rejects `value < timezone.now()`. -/
def validate_date (now value : Int) : Except Unit Int :=
  if value < now then Except.error () else Except.ok value

/-- `EventCreateUpdateSerializer.validate_max_attendees`
(serializers.py): rejects a provided value that is `<= 0`. -/
def validate_max_attendees (value : Option Int) :
    Except Unit (Option Int) :=
  match value with
  | some v => if v ≤ 0 then Except.error () else Except.ok (some v)
  | none => Except.ok none

/-- The field errors `serializer.is_valid` collects for an
event-creation request: one per failing field validator. -/
def create_event_errors (now : Int) (d : EventDraft) : List CreateError :=
  (match validate_date now d.date with
   | Except.ok _ => []
   | Except.error _ => [CreateError.PastDateError]) ++
  (match validate_max_attendees d.maxAttendees with
   | Except.ok _ => []
   | Except.error _ => [CreateError.InvalidCapacityError])

/-- `EventViewSet.create` (views.py): `is_valid(raise_exception=True)`
surfaces the collected field errors as a 400 response and saves no
record; otherwise `serializer.save(organizer=request.user)` creates the
event. -/
def create_event (now : Int) (organizer : Nat) (d : EventDraft) :
    Except (List CreateError) Event :=
  match create_event_errors now d with
  | [] => Except.ok ⟨organizer, d.date, (d.maxAttendees.map Int.toNat)⟩
  | errs => Except.error errs

/-- The persistence-layer uniqueness constraint
`unique_together = ['user', 'event']` of `EventRegistration.Meta`
(models.py): no two rows share a (user, event) pair. -/
def UniquePairs (s : State) : Prop :=
  s.regs.Pairwise (fun a b => ¬(a.user = b.user ∧ a.event = b.event))

/-- The registration-table states reachable through the registration
operations, starting from an empty table (the spec's registration
lifecycle: records are created only by `register` and deleted only by
`unregister`). -/
inductive Reachable (events : Nat → Event) : State → Prop where
  | empty : Reachable events ⟨[]⟩
  | step_register (u eid : Nat) (s : State) :
      Reachable events s → Reachable events (register events u eid s).state
  | step_unregister (u eid : Nat) (s : State) :
      Reachable events s → Reachable events (unregister u eid s).2

/-- A sequence of `register` calls, all of which must succeed; `none`
when any call in the sequence returns an error response. -/
def registerMany (events : Nat → Event) (users : List Nat) (eid : Nat)
    (s : State) : Option State :=
  match users with
  | [] => some s
  | u :: rest =>
    match (register events u eid s).result with
    | Except.ok _ => registerMany events rest eid (register events u eid s).state
    | Except.error _ => none

/-- Fixture: every event organized by user 0, dated in the future
(date 10), capacity 5. -/
def eventsA : Nat → Event := fun _ => ⟨0, 10, some 5⟩

/-- Fixture: every event organized by user 0, dated in the future,
capacity 1. -/
def eventsB : Nat → Event := fun _ => ⟨0, 10, some 1⟩

/-- Fixture: every event organized by user 0, dated in the future,
capacity 0 (full with no registrations at all). -/
def eventsFull : Nat → Event := fun _ => ⟨0, 10, some 0⟩

/-- Fixture: every event organized by user 0, dated in the future,
`max_attendees` unset (unlimited). -/
def eventsNoCap : Nat → Event := fun _ => ⟨0, 10, none⟩

/-- Fixture: every event organized by user 0, dated in the past
(date -5, relative to `now = 0`), capacity 5. -/
def eventsPast : Nat → Event := fun _ => ⟨0, -5, some 5⟩

/-- Fixture: the state reached from the empty table by one successful
`register` call of user 1 for event 0 against `eventsA`. -/
def exS1 : State := (register eventsA 1 0 ⟨[]⟩).state

/-- Fixture: a table holding a confirmed registration of user 0 — the
organizer of every `eventsFull` event — for event 0. -/
def sDup : State := ⟨[⟨0, 0, RegStatus.confirmed⟩]⟩

/-- Fixture: a table holding one confirmed registration of user 1 for
event 0. -/
def sB1 : State := ⟨[⟨1, 0, RegStatus.confirmed⟩]⟩

/-- Fixture: a table holding one cancelled registration of user 0 — the
organizer of every `eventsA` event — for event 0. -/
def sCancelled : State := ⟨[⟨0, 0, RegStatus.cancelled⟩]⟩

/-- Fixture: a table holding one cancelled registration of user 1 (not
an organizer) for event 0. -/
def sCancelled2 : State := ⟨[⟨1, 0, RegStatus.cancelled⟩]⟩

/-- Fixture: a table holding three confirmed registrations for
event 0. -/
def sBig : State :=
  ⟨[⟨1, 0, RegStatus.confirmed⟩, ⟨2, 0, RegStatus.confirmed⟩,
    ⟨3, 0, RegStatus.confirmed⟩]⟩

/-! ### Helper lemmas about the embedded operations -/

theorem hasRegistration_eq_false_iff {s : State} {u eid : Nat} :
    hasRegistration s u eid = false ↔
      ∀ r ∈ s.regs, ¬(r.user = u ∧ r.event = eid) := by
  simp [hasRegistration, not_and]

theorem hasRegistration_eq_true_iff {s : State} {u eid : Nat} :
    hasRegistration s u eid = true ↔
      ∃ r ∈ s.regs, r.user = u ∧ r.event = eid := by
  simp [hasRegistration]

theorem register_cases (events : Nat → Event) (u eid : Nat) (s : State) :
    ((∃ e, (register events u eid s).result = Except.error e) ∧
      (register events u eid s).state = s) ∨
    ((events eid).organizer ≠ u ∧ hasRegistration s u eid = false ∧
      is_full events s eid = false ∧
      (register events u eid s).result =
        Except.ok ⟨u, eid, RegStatus.confirmed⟩ ∧
      (register events u eid s).state =
        ⟨s.regs ++ [⟨u, eid, RegStatus.confirmed⟩]⟩) := by
  by_cases h1 : (events eid).organizer = u
  · exact Or.inl ⟨⟨RegisterError.OwnerSelfRegistration, by simp [register, h1]⟩,
      by simp [register, h1]⟩
  · by_cases h2 : hasRegistration s u eid
    · exact Or.inl ⟨⟨RegisterError.DuplicateRegistration, by simp [register, h1, h2]⟩,
        by simp [register, h1, h2]⟩
    · by_cases h3 : is_full events s eid
      · exact Or.inl ⟨⟨RegisterError.CapacityExceeded, by simp [register, h1, h2, h3]⟩,
          by simp [register, h1, h2, h3]⟩
      · exact Or.inr ⟨h1, by simpa using h2, by simpa using h3,
          by simp [register, h1, h2, h3], by simp [register, h1, h2, h3]⟩

theorem register_no_email (events : Nat → Event) (u eid : Nat) (s : State) :
    (register events u eid s).sentConfirmationEmails = [] := by
  unfold register
  split
  · rfl
  · split
    · rfl
    · split
      · rfl
      · rfl

theorem pairwise_filter_pair_length_le_one {l : List Registration}
    (hp : l.Pairwise (fun a b => ¬(a.user = b.user ∧ a.event = b.event)))
    (u eid : Nat) :
    (l.filter (fun r => r.user == u && r.event == eid)).length ≤ 1 := by
  have hpf := hp.filter (fun r => r.user == u && r.event == eid)
  rcases hfl : l.filter (fun r => r.user == u && r.event == eid)
    with _ | ⟨a, _ | ⟨b, t⟩⟩
  · simp [hfl]
  · simp [hfl]
  · exfalso
    rw [hfl] at hpf
    have hab := (List.pairwise_cons.mp hpf).1 b (by simp)
    have ha := List.mem_filter.mp (show a ∈ l.filter
      (fun r => r.user == u && r.event == eid) by rw [hfl]; simp)
    have hb := List.mem_filter.mp (show b ∈ l.filter
      (fun r => r.user == u && r.event == eid) by rw [hfl]; simp)
    simp only [Bool.and_eq_true, beq_iff_eq] at ha hb
    exact hab ⟨ha.2.1.trans hb.2.1.symm, ha.2.2.trans hb.2.2.symm⟩

theorem eraseP_pair_no_match {l : List Registration} {u eid : Nat}
    (hp : l.Pairwise (fun a b => ¬(a.user = b.user ∧ a.event = b.event))) :
    ∀ r ∈ l.eraseP (fun r => r.user == u && r.event == eid),
      ¬(r.user = u ∧ r.event = eid) := by
  induction l with
  | nil => simp
  | cons a t ih =>
    cases hpa : (a.user == u && a.event == eid) with
    | true =>
      simp only [List.eraseP_cons, hpa, cond_true]
      have hpa' : a.user = u ∧ a.event = eid := by
        simpa [Bool.and_eq_true, beq_iff_eq] using hpa
      intro r hr ⟨hru, hre⟩
      have := (List.pairwise_cons.mp hp).1 r hr
      exact this ⟨hpa'.1.trans hru.symm, hpa'.2.trans hre.symm⟩
    | false =>
      simp only [List.eraseP_cons, hpa, cond_false]
      intro r hr
      rcases List.mem_cons.mp hr with hra | hrt
      · subst hra
        simpa using hpa
      · exact ih (List.pairwise_cons.mp hp).2 r hrt

theorem mem_eraseP_of_no_match {l : List Registration}
    {p : Registration → Bool} :
    ∀ r ∈ l, p r = false → r ∈ l.eraseP p := by
  induction l with
  | nil => simp
  | cons a t ih =>
    intro r hr hpr
    by_cases hpa : p a = true
    · rw [List.eraseP_cons_of_pos hpa]
      rcases List.mem_cons.mp hr with hra | hrt
      · subst hra; rw [hpa] at hpr; cases hpr
      · exact hrt
    · rw [List.eraseP_cons_of_neg hpa]
      rcases List.mem_cons.mp hr with hra | hrt
      · subst hra; exact List.mem_cons_self _ _
      · exact List.mem_cons_of_mem _ (ih r hrt hpr)

theorem Reachable.uniquePairs {events : Nat → Event} {s : State}
    (h : Reachable events s) : UniquePairs s := by
  induction h with
  | empty => exact List.Pairwise.nil
  | step_register u eid s hs ih =>
    rcases register_cases events u eid s with ⟨_, heq⟩ | ⟨h1, h2, h3, hres, heq⟩
    · rwa [heq]
    · rw [heq]
      unfold UniquePairs at *
      rw [List.pairwise_append]
      refine ⟨ih, List.pairwise_singleton _ _, ?_⟩
      intro a ha b hb
      simp only [List.mem_singleton] at hb
      subst hb
      intro hab
      exact (hasRegistration_eq_false_iff.mp h2) a ha ⟨hab.1, hab.2⟩
  | step_unregister u eid s hs ih =>
    unfold UniquePairs at *
    unfold unregister
    by_cases hreg : hasRegistration s u eid
    · simp only [hreg, if_true]
      exact ih.sublist (List.eraseP_sublist _)
    · simpa only [hreg, if_false] using ih

theorem Reachable.noSelfOrganizer {events : Nat → Event} {s : State}
    (h : Reachable events s) :
    ∀ r ∈ s.regs, (events r.event).organizer ≠ r.user := by
  induction h with
  | empty => simp
  | step_register u eid s hs ih =>
    rcases register_cases events u eid s with ⟨_, heq⟩ | ⟨h1, h2, h3, hres, heq⟩
    · rwa [heq]
    · rw [heq]
      intro r hr
      rcases List.mem_append.mp hr with hrl | hrr
      · exact ih r hrl
      · simp only [List.mem_singleton] at hrr
        subst hrr
        exact h1
  | step_unregister u eid s hs ih =>
    unfold unregister
    by_cases hreg : hasRegistration s u eid
    · simp only [hreg, if_true]
      intro r hr
      exact ih r (List.mem_of_mem_eraseP hr)
    · simpa only [hreg, if_false] using ih

theorem register_success_count (events : Nat → Event) (u eid : Nat)
    (s : State) (r : Registration)
    (h : (register events u eid s).result = Except.ok r) :
    attendees_count (register events u eid s).state eid =
      attendees_count s eid + 1 := by
  rcases register_cases events u eid s with ⟨⟨e, he⟩, _⟩ | ⟨h1, h2, h3, hres, hst⟩
  · rw [he] at h
    exact Except.noConfusion h
  · rw [hst]
    simp [attendees_count, confirmedRegs, List.filter_append]

theorem registerMany_count (events : Nat → Event) (users : List Nat)
    (eid : Nat) :
    ∀ s s' : State, registerMany events users eid s = some s' →
      attendees_count s' eid = attendees_count s eid + users.length := by
  induction users with
  | nil =>
    intro s s' h
    simp only [registerMany, Option.some.injEq] at h
    subst h
    simp
  | cons u rest ih =>
    intro s s' h
    rw [registerMany] at h
    split at h
    · next r heq =>
      have hrest := ih _ _ h
      have hone := register_success_count events u eid s r heq
      simp only [List.length_cons]
      omega
    · exact Option.noConfusion h

/-! ### Claim theorems -/

/-- C1: in every state reachable through the registration operations,
at most one `Registration` row exists per (user, event) pair, and a
`register` call for a pair that already has a row fails with the
`DuplicateRegistration` error. -/
theorem C1_unique_registration (events : Nat → Event) (s : State)
    (h : Reachable events s) :
    (∀ u eid : Nat,
      (s.regs.filter (fun r => r.user == u && r.event == eid)).length ≤ 1) ∧
    (∀ u eid : Nat, hasRegistration s u eid = true →
      (register events u eid s).result =
        Except.error RegisterError.DuplicateRegistration) := by
  refine ⟨fun u eid => pairwise_filter_pair_length_le_one h.uniquePairs u eid, ?_⟩
  intro u eid hreg
  obtain ⟨r, hr, hru, hre⟩ := hasRegistration_eq_true_iff.mp hreg
  have horg := h.noSelfOrganizer r hr
  rw [hre, hru] at horg
  simp [register, horg, hreg]

/-- Witness for C1 at the concrete reachable state `exS1`, which holds
exactly one registration (user 1, event 0). -/
theorem C1_unique_registration_witness :
    (exS1.regs.filter (fun r => r.user == 1 && r.event == 0)).length ≤ 1 ∧
    (register eventsA 1 0 exS1).result =
      Except.error RegisterError.DuplicateRegistration := by
  have h := C1_unique_registration eventsA exS1
    (Reachable.step_register 1 0 ⟨[]⟩ Reachable.empty)
  exact ⟨h.1 1 0, h.2 1 0 (by decide)⟩

/-- C2: `register` checks its preconditions in the fixed order
ownership, duplication, capacity, and returns the error of the first
failing check; in particular an organizer registering for their own
event always gets `OwnerSelfRegistration`, regardless of capacity or an
existing duplicate row. -/
theorem C2_check_order (events : Nat → Event) (u eid : Nat) (s : State) :
    ((events eid).organizer = u →
      (register events u eid s).result =
        Except.error RegisterError.OwnerSelfRegistration) ∧
    ((events eid).organizer ≠ u → hasRegistration s u eid = true →
      (register events u eid s).result =
        Except.error RegisterError.DuplicateRegistration) ∧
    ((events eid).organizer ≠ u → hasRegistration s u eid = false →
      is_full events s eid = true →
      (register events u eid s).result =
        Except.error RegisterError.CapacityExceeded) :=
  ⟨fun h1 => by simp [register, h1],
   fun h1 h2 => by simp [register, h1, h2],
   fun h1 h2 h3 => by simp [register, h1, h2, h3]⟩

/-- Witness for C2: user 0 organizes event 0, which is both full
(capacity 0) and already has a row for user 0, yet `register` answers
`OwnerSelfRegistration`; the later checks fire at other inputs. -/
theorem C2_check_order_witness :
    hasRegistration sDup 0 0 = true ∧ is_full eventsFull sDup 0 = true ∧
    (register eventsFull 0 0 sDup).result =
      Except.error RegisterError.OwnerSelfRegistration ∧
    (register eventsA 1 0 sB1).result =
      Except.error RegisterError.DuplicateRegistration ∧
    (register eventsFull 1 0 ⟨[]⟩).result =
      Except.error RegisterError.CapacityExceeded :=
  ⟨by decide, by decide,
   (C2_check_order eventsFull 0 0 sDup).1 rfl,
   (C2_check_order eventsA 1 0 sB1).2.1 (by decide) (by decide),
   (C2_check_order eventsFull 1 0 ⟨[]⟩).2.2 (by decide) (by decide) (by decide)⟩

/-- C4: `is_full` is false whenever `max_attendees` is unset, whatever
the confirmed-registration count; when `max_attendees = n` it is true
exactly when the count of the event's registrations with status
`confirmed` is at least `n` (and `attendees_count` is that count). -/
theorem C4_is_full_spec (events : Nat → Event) (s : State) (eid : Nat) :
    ((events eid).maxAttendees = none → is_full events s eid = false) ∧
    (∀ n : Nat, (events eid).maxAttendees = some n →
      (is_full events s eid = true ↔ attendees_count s eid ≥ n)) ∧
    attendees_count s eid =
      (s.regs.filter (fun r => r.event == eid &&
        r.status == RegStatus.confirmed)).length :=
  ⟨fun h => by simp [is_full, h],
   fun n h => by simp [is_full, h],
   rfl⟩

/-- Witness for C4: an unlimited event is not full even with three
confirmed registrations, and a capacity-5 event is full exactly when
its confirmed count reaches 5. -/
theorem C4_is_full_spec_witness :
    is_full eventsNoCap sBig 0 = false ∧
    (is_full eventsA sBig 0 = true ↔ attendees_count sBig 0 ≥ 5) :=
  ⟨(C4_is_full_spec eventsNoCap sBig 0).1 rfl,
   (C4_is_full_spec eventsA sBig 0).2.1 5 rfl⟩

/-- C3: for an event with `max_attendees = N`, after `N` successful
`register` calls starting from a state in which the event has no
confirmed registrations, the next `register` call by a further eligible
user (not the organizer, not yet registered) fails with
`CapacityExceeded`.  The spec's additional concurrent-issue guarantee
is outside this sequential embedding. -/
theorem C3_capacity_exceeded (events : Nat → Event) (eid N : Nat)
    (users : List Nat) (s0 sN : State) (u : Nat)
    (hmax : (events eid).maxAttendees = some N)
    (hlen : users.length = N)
    (h0 : attendees_count s0 eid = 0)
    (hrun : registerMany events users eid s0 = some sN)
    (horg : (events eid).organizer ≠ u)
    (hdup : hasRegistration sN u eid = false) :
    (register events u eid sN).result =
      Except.error RegisterError.CapacityExceeded := by
  have hcount := registerMany_count events users eid s0 sN hrun
  have hfull : is_full events sN eid = true := by
    simp only [is_full, hmax, ge_iff_le, decide_eq_true_eq]
    omega
  simp [register, horg, hdup, hfull]

/-- Witness for C3 with `N = 1`: after the one successful registration
of user 1 for the capacity-1 event 0, user 2's attempt fails with
`CapacityExceeded`. -/
theorem C3_capacity_exceeded_witness :
    registerMany eventsB [1] 0 ⟨[]⟩ = some sB1 ∧
    (register eventsB 2 0 sB1).result =
      Except.error RegisterError.CapacityExceeded :=
  ⟨by decide,
   C3_capacity_exceeded eventsB 0 1 [1] ⟨[]⟩ sB1 2 rfl rfl (by decide)
     (by decide) (by decide) (by decide)⟩

/-- C5: `unregister` fails with `NotRegistered` and leaves the table
unchanged when no row for (user, event) exists; when one exists (under
the table's uniqueness constraint) it succeeds by deleting the row
entirely — afterwards no row for the pair remains at all, so
`is_registered` is false — while every other row survives. -/
theorem C5_unregister_spec (u eid : Nat) (s : State) :
    (hasRegistration s u eid = false →
      unregister u eid s = (Except.error UnregisterError.NotRegistered, s)) ∧
    (UniquePairs s → hasRegistration s u eid = true →
      (unregister u eid s).1 = Except.ok () ∧
      hasRegistration (unregister u eid s).2 u eid = false ∧
      is_registered (unregister u eid s).2 u eid = false ∧
      ∀ r ∈ s.regs, ¬(r.user = u ∧ r.event = eid) →
        r ∈ (unregister u eid s).2.regs) := by
  constructor
  · intro h
    simp [unregister, h]
  · intro hp hreg
    have hu : (unregister u eid s).2 =
        ⟨s.regs.eraseP (fun r => r.user == u && r.event == eid)⟩ := by
      simp [unregister, hreg]
    refine ⟨by simp [unregister, hreg], ?_, ?_, ?_⟩
    · rw [hu]
      exact hasRegistration_eq_false_iff.mpr (eraseP_pair_no_match hp)
    · rw [hu]
      simp only [is_registered, List.any_eq_false]
      intro r hr
      have hnp := eraseP_pair_no_match hp r hr
      simp only [Bool.and_eq_true, beq_iff_eq]
      intro h
      exact hnp ⟨h.1.2, h.1.1⟩
    · intro r hr hnr
      rw [hu]
      apply mem_eraseP_of_no_match r hr
      rcases Decidable.em (r.user = u) with h1 | h1
      · have h2 : r.event ≠ eid := fun h2 => hnr ⟨h1, h2⟩
        simp [h1, h2]
      · simp [h1]

/-- Witness for C5: in `sB1` user 2 is not registered and gets
`NotRegistered` with the table untouched; user 1 is registered and
unregistering deletes the row, after which `is_registered` is false. -/
theorem C5_unregister_spec_witness :
    unregister 2 0 sB1 = (Except.error UnregisterError.NotRegistered, sB1) ∧
    (unregister 1 0 sB1).1 = Except.ok () ∧
    hasRegistration (unregister 1 0 sB1).2 1 0 = false ∧
    is_registered (unregister 1 0 sB1).2 1 0 = false ∧
    ∀ r ∈ sB1.regs, ¬(r.user = 1 ∧ r.event = 0) →
      r ∈ (unregister 1 0 sB1).2.regs :=
  ⟨(C5_unregister_spec 2 0 sB1).1 (by decide),
   (C5_unregister_spec 1 0 sB1).2 (by unfold UniquePairs; decide) (by decide)⟩

/-- C10: whenever `register` or `unregister` returns an error response,
the registration table afterwards is exactly what it was before the
call: no row is created, deleted or modified on any error path. -/
theorem C10_error_no_mutation (events : Nat → Event) (u eid : Nat)
    (s : State) :
    (∀ e : RegisterError, (register events u eid s).result = Except.error e →
      (register events u eid s).state = s) ∧
    (∀ e : UnregisterError, (unregister u eid s).1 = Except.error e →
      (unregister u eid s).2 = s) := by
  constructor
  · intro e he
    rcases register_cases events u eid s with ⟨_, heq⟩ | ⟨_, _, _, hres, _⟩
    · exact heq
    · rw [hres] at he
      exact Except.noConfusion he
  · intro e he
    by_cases hreg : hasRegistration s u eid
    · rw [show (unregister u eid s).1 = Except.ok () by
        simp [unregister, hreg]] at he
      exact Except.noConfusion he
    · simp [unregister, hreg]

/-- Witness for C10: both operations fail on concrete inputs (organizer
self-registration; unregistering while absent) and return the table
unchanged. -/
theorem C10_error_no_mutation_witness :
    (register eventsA 0 0 sB1).state = sB1 ∧ (unregister 2 0 sB1).2 = sB1 :=
  ⟨(C10_error_no_mutation eventsA 0 0 sB1).1
      RegisterError.OwnerSelfRegistration rfl,
   (C10_error_no_mutation eventsA 2 0 sB1).2
      UnregisterError.NotRegistered rfl⟩

/-- C6 (amended): the `register` operation path performs no event-date
check — an otherwise-eligible user (not the organizer, no existing row,
event not full) registers successfully even when the event's date is
already in the past — while the data-validation layer
(`EventRegistration.clean`), which the operation path never invokes,
would reject exactly that registration. -/
theorem C6_register_ignores_past_date (events : Nat → Event)
    (u eid : Nat) (s : State) (now : Int)
    (horg : (events eid).organizer ≠ u)
    (hdup : hasRegistration s u eid = false)
    (hfull : is_full events s eid = false) :
    (register events u eid s).result =
      Except.ok ⟨u, eid, RegStatus.confirmed⟩ ∧
    ((events eid).date < now →
      registration_clean events now ⟨u, eid, RegStatus.confirmed⟩ =
        Except.error CleanError.PastEventRegistration) := by
  constructor
  · simp [register, horg, hdup, hfull]
  · intro hpast
    simp [registration_clean, horg, hpast]

/-- C6 counterexample: with `now = 0`, event 0 of `eventsPast` is dated
in the past (date `-5`), yet `register` by eligible user 1 succeeds and
creates a confirmed registration — no `EventInPast` failure occurs —
even though `EventRegistration.clean` would have rejected it. -/
theorem C6_counterexample :
    (eventsPast 0).date < 0 ∧
    (register eventsPast 1 0 ⟨[]⟩).result =
      Except.ok ⟨1, 0, RegStatus.confirmed⟩ ∧
    (register eventsPast 1 0 ⟨[]⟩).state.regs =
      [⟨1, 0, RegStatus.confirmed⟩] ∧
    registration_clean eventsPast 0 ⟨1, 0, RegStatus.confirmed⟩ =
      Except.error CleanError.PastEventRegistration :=
  ⟨by decide, rfl, rfl, rfl⟩

/-- Witness for the amended C6 at the concrete past-dated event. -/
theorem C6_register_ignores_past_date_witness :
    (register eventsPast 1 0 ⟨[]⟩).result =
      Except.ok ⟨1, 0, RegStatus.confirmed⟩ ∧
    registration_clean eventsPast 0 ⟨1, 0, RegStatus.confirmed⟩ =
      Except.error CleanError.PastEventRegistration := by
  have h := C6_register_ignores_past_date eventsPast 1 0 ⟨[]⟩ 0
    (by decide) (by decide) (by decide)
  exact ⟨h.1, h.2 (by decide)⟩

/-- C7 (amended): every successful `register` call creates a
registration whose status is `confirmed` and appends it to the table,
but dispatches no confirmation notification at all — `views.py` never
invokes `send_registration_confirmation_email` — so a notification
failure trivially cannot fail the operation or roll the row back. -/
theorem C7_success_confirmed_no_notification (events : Nat → Event)
    (u eid : Nat) (s : State) (r : Registration)
    (h : (register events u eid s).result = Except.ok r) :
    r.status = RegStatus.confirmed ∧
    r ∈ (register events u eid s).state.regs ∧
    (register events u eid s).sentConfirmationEmails = [] := by
  rcases register_cases events u eid s with ⟨⟨e, he⟩, _⟩ | ⟨h1, h2, h3, hres, hst⟩
  · rw [he] at h
    exact Except.noConfusion h
  · rw [hres] at h
    have hr : r = ⟨u, eid, RegStatus.confirmed⟩ := (Except.ok.inj h).symm
    subst hr
    refine ⟨rfl, ?_, register_no_email events u eid s⟩
    rw [hst]
    simp

/-- C7 counterexample: a successful concrete `register` call creates
the confirmed registration, but its dispatched-notification list is
empty: no confirmation notification is sent. -/
theorem C7_counterexample :
    (register eventsA 1 0 ⟨[]⟩).result =
      Except.ok ⟨1, 0, RegStatus.confirmed⟩ ∧
    (register eventsA 1 0 ⟨[]⟩).sentConfirmationEmails = [] :=
  ⟨rfl, rfl⟩

/-- Witness for the amended C7 at a concrete successful call. -/
theorem C7_success_confirmed_no_notification_witness :
    (⟨1, 0, RegStatus.confirmed⟩ : Registration).status =
      RegStatus.confirmed ∧
    (⟨1, 0, RegStatus.confirmed⟩ : Registration) ∈
      (register eventsA 1 0 ⟨[]⟩).state.regs ∧
    (register eventsA 1 0 ⟨[]⟩).sentConfirmationEmails = [] :=
  C7_success_confirmed_no_notification eventsA 1 0 ⟨[]⟩
    ⟨1, 0, RegStatus.confirmed⟩ rfl

/-- C8: event creation rejects a date earlier than `now` with
`PastDateError` and a provided non-positive `max_attendees` with
`InvalidCapacityError`, creating no event in either case; a draft with
`date >= now` and a valid capacity is accepted. -/
theorem C8_create_event_validation (now : Int) (org : Nat)
    (d : EventDraft) :
    (d.date < now →
      ∃ errs, create_event now org d = Except.error errs ∧
        CreateError.PastDateError ∈ errs) ∧
    (∀ v : Int, d.maxAttendees = some v → v ≤ 0 →
      ∃ errs, create_event now org d = Except.error errs ∧
        CreateError.InvalidCapacityError ∈ errs) ∧
    (now ≤ d.date → (∀ v : Int, d.maxAttendees = some v → 0 < v) →
      ∃ ev, create_event now org d = Except.ok ev) := by
  refine ⟨?_, ?_, ?_⟩
  · intro hdate
    have hd : validate_date now d.date = Except.error () := by
      simp [validate_date, hdate]
    cases hm : validate_max_attendees d.maxAttendees with
    | ok w =>
      exact ⟨[CreateError.PastDateError],
        by simp [create_event, create_event_errors, hd, hm], by simp⟩
    | error e =>
      exact ⟨[CreateError.PastDateError, CreateError.InvalidCapacityError],
        by simp [create_event, create_event_errors, hd, hm], by simp⟩
  · intro v hv hle
    have hm : validate_max_attendees d.maxAttendees = Except.error () := by
      rw [hv]
      simp [validate_max_attendees, hle]
    cases hd : validate_date now d.date with
    | ok w =>
      exact ⟨[CreateError.InvalidCapacityError],
        by simp [create_event, create_event_errors, hd, hm], by simp⟩
    | error e =>
      exact ⟨[CreateError.PastDateError, CreateError.InvalidCapacityError],
        by simp [create_event, create_event_errors, hd, hm], by simp⟩
  · intro hdate hcap
    have hnd : ¬(d.date < now) := by omega
    have hd : validate_date now d.date = Except.ok d.date := by
      simp [validate_date, hnd]
    have hm : validate_max_attendees d.maxAttendees =
        Except.ok d.maxAttendees := by
      cases hv : d.maxAttendees with
      | none => simp [validate_max_attendees]
      | some v =>
        have hpos := hcap v hv
        have hnle : ¬(v ≤ 0) := by omega
        simp [validate_max_attendees, hnle]
    exact ⟨⟨org, d.date, d.maxAttendees.map Int.toNat⟩,
      by simp [create_event, create_event_errors, hd, hm]⟩

/-- Witness for C8: a past date is rejected with `PastDateError`, a
zero capacity with `InvalidCapacityError`, and a valid draft is
accepted. -/
theorem C8_create_event_validation_witness :
    (∃ errs, create_event 0 7 ⟨-1, none⟩ = Except.error errs ∧
      CreateError.PastDateError ∈ errs) ∧
    (∃ errs, create_event 0 7 ⟨5, some 0⟩ = Except.error errs ∧
      CreateError.InvalidCapacityError ∈ errs) ∧
    (∃ ev, create_event 0 7 ⟨5, some 3⟩ = Except.ok ev) :=
  ⟨(C8_create_event_validation 0 7 ⟨-1, none⟩).1 (by decide),
   (C8_create_event_validation 0 7 ⟨5, some 0⟩).2.1 0 rfl (by decide),
   (C8_create_event_validation 0 7 ⟨5, some 3⟩).2.2 (by decide)
     (fun v hv => by injection hv with h; omega)⟩

/-- C9 (amended): in any state satisfying the table's uniqueness
constraint that holds a cancelled or waitlist registration for
(user, event), provided the user is not the event's organizer,
`register` fails with `DuplicateRegistration` — the duplicate check
ignores status — even though `is_registered` is false and the row is
not among the confirmed registrations that `attendees_count` counts and
`is_full` reads. -/
theorem C9_duplicate_ignores_status (events : Nat → Event)
    (u eid : Nat) (s : State) (r : Registration)
    (hp : UniquePairs s) (horg : (events eid).organizer ≠ u)
    (hr : r ∈ s.regs) (hru : r.user = u) (hre : r.event = eid)
    (hst : r.status = RegStatus.cancelled ∨
      r.status = RegStatus.waitlist) :
    (register events u eid s).result =
      Except.error RegisterError.DuplicateRegistration ∧
    is_registered s u eid = false ∧
    r ∉ confirmedRegs s eid := by
  have hreg : hasRegistration s u eid = true :=
    hasRegistration_eq_true_iff.mpr ⟨r, hr, hru, hre⟩
  have hsymm : Symmetric
      (fun a b : Registration => ¬(a.user = b.user ∧ a.event = b.event)) :=
    fun a b hab h => hab ⟨h.1.symm, h.2.symm⟩
  refine ⟨by simp [register, horg, hreg], ?_, ?_⟩
  · simp only [is_registered, List.any_eq_false]
    intro q hq
    simp only [Bool.and_eq_true, beq_iff_eq]
    intro h
    have hne : q ≠ r := by
      intro he
      subst he
      rcases hst with hc | hc <;> rw [hc] at h <;>
        exact RegStatus.noConfusion h.2
    exact hp.forall hsymm hq hr hne
      ⟨h.1.2.trans hru.symm, h.1.1.trans hre.symm⟩
  · intro hmem
    have hsc := (List.mem_filter.mp hmem).2
    simp only [Bool.and_eq_true, beq_iff_eq] at hsc
    rcases hst with hc | hc <;> rw [hc] at hsc <;>
      exact RegStatus.noConfusion hsc.2

/-- C9 counterexample: in `sCancelled` — whose only row is a cancelled
registration of user 0 for event 0, user 0 being the organizer of every
`eventsA` event — `register` by user 0 for event 0 fails with
`OwnerSelfRegistration`, not `DuplicateRegistration`: the ownership
check precedes the duplicate check. -/
theorem C9_counterexample :
    sCancelled.regs = [⟨0, 0, RegStatus.cancelled⟩] ∧
    UniquePairs sCancelled ∧
    (register eventsA 0 0 sCancelled).result =
      Except.error RegisterError.OwnerSelfRegistration ∧
    (register eventsA 0 0 sCancelled).result ≠
      Except.error RegisterError.DuplicateRegistration := by
  refine ⟨rfl, by unfold UniquePairs; decide, rfl, ?_⟩
  intro h
  have h2 : RegisterError.OwnerSelfRegistration =
      RegisterError.DuplicateRegistration := Except.error.inj h
  exact RegisterError.noConfusion h2

/-- Witness for the amended C9 at `sCancelled2` (user 1, not the
organizer, holds a cancelled registration for event 0). -/
theorem C9_duplicate_ignores_status_witness :
    (register eventsA 1 0 sCancelled2).result =
      Except.error RegisterError.DuplicateRegistration ∧
    is_registered sCancelled2 1 0 = false ∧
    (⟨1, 0, RegStatus.cancelled⟩ : Registration) ∉
      confirmedRegs sCancelled2 0 :=
  C9_duplicate_ignores_status eventsA 1 0 sCancelled2
    ⟨1, 0, RegStatus.cancelled⟩ (by unfold UniquePairs; decide)
    (by decide) (by decide) rfl rfl (Or.inl rfl)

end EventManager
